import Mathlib

/-!
Verification of the proxy pool manager and request-dispatch engine of the
jinaai repository, as a shallow embedding in Lean 4.

The embedding follows `src/main.py` (class `UltraEnhancedJinaProxyAPI`,
namespace `Engine` below) and `src/proxy_manager.py` (class `ProxyManager`,
namespace `PM` below).

Modelling conventions:
* A proxy endpoint is identified by its address; `str(proxy)` (the key of the
  Python `proxy_performance` dict) is injective on endpoints, so we model the
  endpoint directly as a `Nat` identifier and the dict as a total function
  with default counters `(0, 0)` (the Python code inserts `{"success": 0,
  "total": 0}` on first touch, which is the same thing).
* Network effects are oracles: a probe is a function `Proxy → Bool`
  (`_test_proxy` returning whether the HTTP GET came back 200), and live
  traffic is a function `Nat → Outcome` giving the outcome of the n-th
  outbound request issued by a dispatch call (a response with a status code
  and body, or a raised exception).
* `time.sleep`, logging, thread spawning and header randomization have no
  effect on the pool state or results and are omitted; the background sweep
  is modelled as the state transformation its loop body performs.
* The Python float comparison `perf["success"] / perf["total"] < 0.2` is
  modelled as the exact rational comparison `5 * success < total`.  For
  counter values below 2^50 the two agree: float(0.2) is slightly above 1/5,
  rounding of the quotient is monotone, and the gap `1/(5*total)` between any
  rational strictly below 1/5 and 1/5 itself dwarfs the half-ulp of float(0.2)
  at that scale.
-/

/-- A proxy endpoint, identified by its address (equality is by address). -/
abbrev Proxy := Nat

namespace Engine

/-- Per-proxy performance counters, one entry of the
`proxy_performance` dict of `main.py`. -/
structure Perf where
  success : Nat
  total : Nat
  deriving DecidableEq, Repr

/-- The mutable state of `UltraEnhancedJinaProxyAPI` (`main.py`), restricted
to the fields the pool manager and dispatch engine read or write. -/
structure EngineState where
  free_proxies : List Proxy
  working_proxies : List Proxy
  failed_proxies : List Proxy
  proxy_performance : Proxy → Perf
  request_count : Nat
  successful_requests : Nat
  failed_requests : Nat
  current_proxy_index : Nat

/-- The state right after the field assignments of `__init__` (before
`_initialize_proxies` runs): the candidate list is loaded, both
classification lists are empty, all counters zero. -/
def init_state (pl : List Proxy) : EngineState :=
  { free_proxies := pl
    working_proxies := []
    failed_proxies := []
    proxy_performance := fun _ => ⟨0, 0⟩
    request_count := 0
    successful_requests := 0
    failed_requests := 0
    current_proxy_index := 0 }

/-- The counters `_update_proxy_performance` writes for the touched proxy:
`total` bumped by one, `success` bumped when the outcome was a success. -/
def bumped (s : EngineState) (proxy : Proxy) (success : Bool) : Perf :=
  ⟨(s.proxy_performance proxy).success + (if success then 1 else 0),
   (s.proxy_performance proxy).total + 1⟩

/-- The eviction condition of `_update_proxy_performance` on the post-update
counters: at least 5 attempts and success ratio strictly below 20%. -/
def evictCond (s : EngineState) (p : Proxy) (b : Bool) : Prop :=
  5 ≤ (bumped s p b).total ∧ 5 * (bumped s p b).success < (bumped s p b).total

instance (s : EngineState) (p : Proxy) (b : Bool) : Decidable (evictCond s p b) := by
  unfold evictCond; infer_instance

/-- `_update_proxy_performance(proxy, success)` of `main.py`: bump the
counters for the proxy, then, if the proxy has at least 5 recorded attempts
and a success ratio strictly below 20% (`success / total < 0.2`, embedded
exactly as `5 * success < total`), remove it from the working list (first
occurrence, as Python `list.remove`) and append it to the failed list. -/
def update_proxy_performance (s : EngineState) (proxy : Proxy) (success : Bool) :
    EngineState :=
  let perf0 := s.proxy_performance proxy
  let perf1 : Perf :=
    ⟨perf0.success + (if success then 1 else 0), perf0.total + 1⟩
  let s1 : EngineState :=
    { s with proxy_performance := fun q => if q = proxy then perf1 else s.proxy_performance q }
  if 5 ≤ perf1.total ∧ 5 * perf1.success < perf1.total then
    if proxy ∈ s1.working_proxies then
      { s1 with
        working_proxies := s1.working_proxies.erase proxy
        failed_proxies := s1.failed_proxies ++ [proxy] }
    else s1
  else s1

/-- `_get_next_proxy()` of `main.py`: `None` on an empty working list,
otherwise the element at `current_proxy_index % len(working_proxies)`, and
the cursor advances by one. -/
def get_next_proxy (s : EngineState) : Option Proxy × EngineState :=
  if s.working_proxies.isEmpty then (none, s)
  else
    (s.working_proxies[s.current_proxy_index % s.working_proxies.length]?,
     { s with current_proxy_index := s.current_proxy_index + 1 })

/-- `k` consecutive calls of `_get_next_proxy`, collecting the returned
proxies in order together with the final state. -/
def next_calls : Nat → EngineState → List (Option Proxy) × EngineState
  | 0, s => ([], s)
  | Nat.succ n, s =>
    let r := get_next_proxy s
    let rest := next_calls n r.2
    (r.1 :: rest.1, rest.2)

/-- One iteration of the fast-start loop of `_initialize_proxies`: on probe
success append the proxy to the working list and record counters `(1, 1)`;
on probe failure append it to the failed list. -/
def init_step (probe : Proxy → Bool) (s : EngineState) (proxy : Proxy) : EngineState :=
  if probe proxy then
    { s with
      working_proxies := s.working_proxies ++ [proxy]
      proxy_performance := fun q => if q = proxy then ⟨1, 1⟩ else s.proxy_performance q }
  else { s with failed_proxies := s.failed_proxies ++ [proxy] }

/-- `_initialize_proxies` of `main.py` (fast-start pass): probe the first 20
candidates synchronously, then append every remaining candidate to the
working list untested.  (The spawning of the background thread carries no
state change and is modelled separately as `background_proxy_testing`.) -/
def init_proxies (probe : Proxy → Bool) (s : EngineState) : EngineState :=
  let s1 := (s.free_proxies.take 20).foldl (init_step probe) s
  { s1 with working_proxies := s1.working_proxies ++ s1.free_proxies.drop 20 }

/-- One iteration of the background sweep loop of
`_background_proxy_testing`: a candidate already in the working or failed
list is skipped without a probe; otherwise a probe is issued (recorded in the
second component of the accumulator) and the classification updated exactly
as the Python body does. -/
def sweep_step (probe : Proxy → Bool) (acc : EngineState × List Proxy) (proxy : Proxy) :
    EngineState × List Proxy :=
  let s := acc.1
  if proxy ∈ s.working_proxies ∨ proxy ∈ s.failed_proxies then acc
  else
    let log := acc.2 ++ [proxy]
    if probe proxy then
      if proxy ∈ s.working_proxies then (s, log)
      else
        ({ s with
           working_proxies := s.working_proxies ++ [proxy]
           proxy_performance := fun q => if q = proxy then ⟨1, 1⟩ else s.proxy_performance q },
         log)
    else
      let s1 := if proxy ∈ s.working_proxies
        then { s with working_proxies := s.working_proxies.erase proxy } else s
      let s2 := if proxy ∈ s1.failed_proxies then s1
        else { s1 with failed_proxies := s1.failed_proxies ++ [proxy] }
      (s2, log)

/-- `_background_proxy_testing` of `main.py` (background sweep pass): iterate
the candidates beyond the first 20, applying `sweep_step`.  The second
component of the result is the list of candidates for which `_test_proxy`
was actually called, in order. -/
def background_proxy_testing (probe : Proxy → Bool) (s : EngineState) :
    EngineState × List Proxy :=
  (s.free_proxies.drop 20).foldl (sweep_step probe) (s, [])

/-- An HTTP response, as far as the engine inspects it. -/
structure Response where
  status : Nat
  body : String
  deriving DecidableEq, Repr

/-- The outcome of one outbound `requests.get`: a response, or a raised
exception carrying its message. -/
inductive Outcome where
  | response (r : Response)
  | exception (msg : String)
  deriving DecidableEq, Repr

/-- The result of `_make_request_with_smart_rotation`: a returned response,
or a propagated exception. -/
inductive FetchResult where
  | response (r : Response)
  | raised (msg : String)
  deriving DecidableEq, Repr

/-- The proxied-attempt loop (`for attempt in range(max_retries)`) of
`_make_request_with_smart_rotation`.  The fuel is the number of remaining
iterations; the log collects the requests actually issued (`some p` = a
request through proxy `p`).  When the selector returns `None` the iteration
does nothing (the Python body is guarded by `if proxy:`).  A 200 response is
returned immediately after reporting a success; any other response and any
exception report a failure and continue.  Returns the 200 response if one
was obtained, the state, and the log. -/
def rotation_loop (net : Nat → Outcome) :
    Nat → EngineState → List (Option Proxy) →
    Option Response × EngineState × List (Option Proxy)
  | 0, s, log => (none, s, log)
  | Nat.succ n, s, log =>
    let r := get_next_proxy s
    match r.1 with
    | none => rotation_loop net n r.2 log
    | some proxy =>
      match net log.length with
      | Outcome.response resp =>
        if resp.status = 200 then
          let s1 := update_proxy_performance r.2 proxy true
          (some resp,
           { s1 with successful_requests := s1.successful_requests + 1 },
           log ++ [some proxy])
        else
          rotation_loop net n (update_proxy_performance r.2 proxy false)
            (log ++ [some proxy])
      | Outcome.exception _ =>
        rotation_loop net n (update_proxy_performance r.2 proxy false)
          (log ++ [some proxy])

/-- `_make_request_with_smart_rotation(url, max_retries)` of `main.py`: bump
`request_count`, run the proxied-attempt loop, and if it produced no 200
response issue exactly one direct (proxy-less) request, logged as `none`.
The direct request returns its response whatever the status (bumping
`successful_requests` only on 200), and re-raises its exception on failure. -/
def make_request_with_smart_rotation (net : Nat → Outcome) (s : EngineState)
    (max_retries : Nat) : FetchResult × EngineState × List (Option Proxy) :=
  let s1 : EngineState := { s with request_count := s.request_count + 1 }
  let lp := rotation_loop net max_retries s1 []
  match lp.1 with
  | some resp => (FetchResult.response resp, lp.2.1, lp.2.2)
  | none =>
    match net lp.2.2.length with
    | Outcome.response resp =>
      (FetchResult.response resp,
       if resp.status = 200
       then { lp.2.1 with successful_requests := lp.2.1.successful_requests + 1 }
       else lp.2.1,
       lp.2.2 ++ [none])
    | Outcome.exception msg =>
      (FetchResult.raised msg,
       { lp.2.1 with failed_requests := lp.2.1.failed_requests + 1 },
       lp.2.2 ++ [none])

/-- The caller-visible dictionary built by `search_web` / `read_url`,
restricted to the fields the spec talks about. -/
structure WebResult where
  success : Bool
  content : Option String
  status_code : Option Nat
  error : Option String
  deriving DecidableEq, Repr

/-- `search_web(query)` of `main.py`: dispatch with 5 proxied retries; a
returned response yields a success dictionary with the (truncated) body and
status; any exception is caught and yields a failure dictionary carrying the
error message. -/
def search_web (net : Nat → Outcome) (s : EngineState) (_query : String) :
    WebResult × EngineState :=
  match make_request_with_smart_rotation net s 5 with
  | (FetchResult.response resp, s2, _) =>
    ({ success := true, content := some (resp.body.take 10000),
       status_code := some resp.status, error := none }, s2)
  | (FetchResult.raised msg, s2, _) =>
    ({ success := false, content := none, status_code := none,
       error := some msg }, s2)

/-- `read_url(url)` of `main.py`: same shape as `search_web`, with a 15000
character content cap. -/
def read_url (net : Nat → Outcome) (s : EngineState) (_url : String) :
    WebResult × EngineState :=
  match make_request_with_smart_rotation net s 5 with
  | (FetchResult.response resp, s2, _) =>
    ({ success := true, content := some (resp.body.take 15000),
       status_code := some resp.status, error := none }, s2)
  | (FetchResult.raised msg, s2, _) =>
    ({ success := false, content := none, status_code := none,
       error := some msg }, s2)

end Engine

namespace PM

/-- The mutable state of `ProxyManager` (`proxy_manager.py`). -/
structure PMState where
  proxies : List Proxy
  working_proxies : List Proxy
  failed_proxies : List Proxy
  current_index : Nat
  deriving DecidableEq, Repr

/-- `load_free_proxies()` of `proxy_manager.py`: set the candidate list to
the module-level list `PROXY_LIST` (here the parameter `pl`) and replace the
working list with a fresh copy of it.  The failed list and the cursor are
not touched. -/
def load_free_proxies (pl : List Proxy) (s : PMState) : PMState :=
  { s with proxies := pl, working_proxies := pl }

/-- The `ProxyManager.__init__` state: empty lists and cursor 0, then
`load_free_proxies`. -/
def initial (pl : List Proxy) : PMState :=
  load_free_proxies pl
    { proxies := [], working_proxies := [], failed_proxies := [], current_index := 0 }

/-- `get_working_proxy()` of `proxy_manager.py`: on an empty working list,
reload the full candidate list (`load_free_proxies`) and return `None`;
otherwise return the element at `current_index % len(working_proxies)` and
advance the cursor. -/
def get_working_proxy (pl : List Proxy) (s : PMState) : Option Proxy × PMState :=
  if s.working_proxies.isEmpty then (none, load_free_proxies pl s)
  else
    (s.working_proxies[s.current_index % s.working_proxies.length]?,
     { s with current_index := s.current_index + 1 })

/-- `mark_proxy_failed(proxy)` of `proxy_manager.py`: if the proxy is in the
working list, remove it (first occurrence) and append it to the failed
list; otherwise do nothing. -/
def mark_proxy_failed (s : PMState) (proxy : Proxy) : PMState :=
  if proxy ∈ s.working_proxies then
    { s with
      working_proxies := s.working_proxies.erase proxy
      failed_proxies := s.failed_proxies ++ [proxy] }
  else s

end PM

/-- Helper to build a concrete engine state with zero request counters, used
to instantiate theorems at executable inputs. -/
def mkEngine (free working failed : List Proxy) (perf : Proxy → Engine.Perf)
    (cursor : Nat) : Engine.EngineState :=
  { free_proxies := free, working_proxies := working, failed_proxies := failed,
    proxy_performance := perf, request_count := 0, successful_requests := 0,
    failed_requests := 0, current_proxy_index := cursor }

/-! ## Lemmas and claim theorems -/

namespace Engine

lemma upp_eq_of_cond (s : EngineState) (p : Proxy) (b : Bool)
    (hcond : evictCond s p b) (hmem : p ∈ s.working_proxies) :
    update_proxy_performance s p b =
      { s with
        proxy_performance := fun q => if q = p then bumped s p b else s.proxy_performance q
        working_proxies := s.working_proxies.erase p
        failed_proxies := s.failed_proxies ++ [p] } := by
  obtain ⟨h1, h2⟩ := hcond
  simp only [bumped] at h1 h2
  simp only [update_proxy_performance, bumped]
  rw [if_pos ⟨h1, h2⟩]
  rw [if_pos hmem]

lemma upp_eq_of_not_cond (s : EngineState) (p : Proxy) (b : Bool)
    (hcond : ¬ evictCond s p b) :
    update_proxy_performance s p b =
      { s with
        proxy_performance := fun q => if q = p then bumped s p b else s.proxy_performance q } := by
  simp only [evictCond, bumped] at hcond
  simp only [update_proxy_performance, bumped]
  rw [if_neg hcond]

end Engine

/-- C1: for a proxy currently in the Working set (once) and not in the Failed
set, `_update_proxy_performance` moves it from Working to Failed exactly when
the post-update counters have at least 5 attempts and a success ratio
strictly below 20% (`5 * success < total`); the counters are bumped as
recorded, and when the eviction condition does not hold both lists are left
unchanged — so 5 attempts with 1 success (ratio exactly 20%) leaves the proxy
Working, while a further failure (ratio 1/6) evicts it. -/
theorem update_perf_evicts_iff (s : Engine.EngineState) (p : Proxy) (b : Bool)
    (hcnt : s.working_proxies.count p = 1) :
    ((Engine.update_proxy_performance s p b).proxy_performance p = Engine.bumped s p b) ∧
    ((p ∉ (Engine.update_proxy_performance s p b).working_proxies ∧
      p ∈ (Engine.update_proxy_performance s p b).failed_proxies) ↔
      Engine.evictCond s p b) ∧
    (¬ Engine.evictCond s p b →
      (Engine.update_proxy_performance s p b).working_proxies = s.working_proxies ∧
      (Engine.update_proxy_performance s p b).failed_proxies = s.failed_proxies) := by
  have hmem : p ∈ s.working_proxies := by
    have : 0 < s.working_proxies.count p := by omega
    exact List.count_pos_iff.mp this
  by_cases hcond : Engine.evictCond s p b
  · rw [Engine.upp_eq_of_cond s p b hcond hmem]
    refine ⟨by simp, ?_, fun hno => absurd hcond hno⟩
    constructor
    · intro _; exact hcond
    · intro _
      refine ⟨?_, by simp⟩
      have hce : (s.working_proxies.erase p).count p = s.working_proxies.count p - 1 :=
        List.count_erase_self p s.working_proxies
      intro hin
      have hpos : 0 < (s.working_proxies.erase p).count p :=
        List.count_pos_iff.mpr hin
      omega
  · rw [Engine.upp_eq_of_not_cond s p b hcond]
    refine ⟨by simp, ?_, fun _ => ⟨rfl, rfl⟩⟩
    constructor
    · intro ⟨hnw, _⟩; exact absurd hmem hnw
    · intro hc; exact absurd hc hcond

/-- C1 witness: a Working proxy with counters (1 success, 5 attempts) — i.e.
exactly at the 20% floor after 5 attempts, hence not yet evicted — takes one
more failed attempt: counters become (1, 6), the condition 5·1 < 6 holds, and
the proxy is moved from Working to Failed. -/
theorem update_perf_evicts_iff_witness :
    ((Engine.update_proxy_performance
        (mkEngine [7] [7] [] (fun q => if q = 7 then ⟨1, 5⟩ else ⟨0, 0⟩) 0)
        7 false).proxy_performance 7 =
      Engine.bumped
        (mkEngine [7] [7] [] (fun q => if q = 7 then ⟨1, 5⟩ else ⟨0, 0⟩) 0) 7 false) ∧
    ((7 ∉ (Engine.update_proxy_performance
        (mkEngine [7] [7] [] (fun q => if q = 7 then ⟨1, 5⟩ else ⟨0, 0⟩) 0)
        7 false).working_proxies ∧
      7 ∈ (Engine.update_proxy_performance
        (mkEngine [7] [7] [] (fun q => if q = 7 then ⟨1, 5⟩ else ⟨0, 0⟩) 0)
        7 false).failed_proxies) ↔
      Engine.evictCond
        (mkEngine [7] [7] [] (fun q => if q = 7 then ⟨1, 5⟩ else ⟨0, 0⟩) 0) 7 false) :=
  ⟨(update_perf_evicts_iff
      (mkEngine [7] [7] [] (fun q => if q = 7 then ⟨1, 5⟩ else ⟨0, 0⟩) 0)
      7 false (by decide)).1,
   (update_perf_evicts_iff
      (mkEngine [7] [7] [] (fun q => if q = 7 then ⟨1, 5⟩ else ⟨0, 0⟩) 0)
      7 false (by decide)).2.1⟩

namespace Engine

lemma get_next_proxy_of_ne_nil (s : EngineState) (h : s.working_proxies ≠ []) :
    get_next_proxy s =
      (s.working_proxies[s.current_proxy_index % s.working_proxies.length]?,
       { s with current_proxy_index := s.current_proxy_index + 1 }) := by
  simp only [get_next_proxy]
  rw [if_neg (by simp [List.isEmpty_eq_false.mpr h])]

lemma next_calls_spec (k : Nat) (s : EngineState) (h : s.working_proxies ≠ []) :
    (next_calls k s).1 =
      (List.range k).map (fun i =>
        s.working_proxies[(s.current_proxy_index + i) % s.working_proxies.length]?) ∧
    (next_calls k s).2 =
      { s with current_proxy_index := s.current_proxy_index + k } := by
  induction k generalizing s with
  | zero =>
    constructor
    · simp [next_calls]
    · simp only [next_calls, Nat.add_zero]
  | succ n ih =>
    have hrw := get_next_proxy_of_ne_nil s h
    have h2 : ({ s with current_proxy_index := s.current_proxy_index + 1 } :
        EngineState).working_proxies ≠ [] := h
    obtain ⟨ih1, ih2⟩ :=
      ih { s with current_proxy_index := s.current_proxy_index + 1 } h2
    dsimp only at ih1 ih2
    constructor
    · show (get_next_proxy s).1 :: (next_calls n (get_next_proxy s).2).1 = _
      rw [hrw]
      dsimp only
      rw [ih1, List.range_succ_eq_map, List.map_cons, List.map_map]
      congr 1
      apply List.map_congr_left
      intro i _
      have he : s.current_proxy_index + 1 + i = s.current_proxy_index + (i + 1) := by
        omega
      simp [he]
    · show (next_calls n (get_next_proxy s).2).2 = _
      rw [hrw]
      dsimp only
      rw [ih2]
      have he : s.current_proxy_index + 1 + n = s.current_proxy_index + (n + 1) := by
        omega
      rw [he]

end Engine

/-- C4: with a non-empty Working set of size N that is not mutated between
calls, N consecutive calls of `_get_next_proxy` return exactly the members of
the working list, each once (a rotation of the list, starting at the cursor
modulo N and following insertion order cyclically); the cursor grows by one
per call (by N over the N calls) and the working list itself is untouched;
on an empty working list the selector returns `none` and changes nothing. -/
theorem round_robin_cycle (s : Engine.EngineState) (h : s.working_proxies ≠ []) :
    ((Engine.next_calls s.working_proxies.length s).1 =
      (s.working_proxies.rotate
        (s.current_proxy_index % s.working_proxies.length)).map some) ∧
    ((Engine.next_calls s.working_proxies.length s).1.Perm
      (s.working_proxies.map some)) ∧
    ((Engine.next_calls s.working_proxies.length s).2.current_proxy_index =
      s.current_proxy_index + s.working_proxies.length) ∧
    ((Engine.next_calls s.working_proxies.length s).2.working_proxies =
      s.working_proxies) ∧
    (∀ t : Engine.EngineState, t.working_proxies = [] →
      Engine.get_next_proxy t = (none, t)) ∧
    (∀ t : Engine.EngineState, t.working_proxies ≠ [] →
      (Engine.get_next_proxy t).2.current_proxy_index = t.current_proxy_index + 1) := by
  obtain ⟨h1, h2⟩ := Engine.next_calls_spec s.working_proxies.length s h
  have hN : 0 < s.working_proxies.length := List.length_pos.mpr h
  have hrot : (Engine.next_calls s.working_proxies.length s).1 =
      (s.working_proxies.rotate
        (s.current_proxy_index % s.working_proxies.length)).map some := by
    rw [h1]
    apply List.ext_getElem?
    intro i
    by_cases hi : i < s.working_proxies.length
    · rw [List.getElem?_map, List.getElem?_map, List.getElem?_range hi,
        List.getElem?_rotate hi]
      have hidx : (i + s.current_proxy_index % s.working_proxies.length) %
          s.working_proxies.length =
          (s.current_proxy_index + i) % s.working_proxies.length := by
        rw [Nat.add_comm i, Nat.mod_add_mod]
      rw [hidx]
      rw [List.getElem?_eq_getElem (Nat.mod_lt _ hN)]
      simp
    · have hlen1 : ((List.range s.working_proxies.length).map (fun i =>
          s.working_proxies[(s.current_proxy_index + i) % s.working_proxies.length]?)).length =
          s.working_proxies.length := by simp
      have hlen2 : ((s.working_proxies.rotate
          (s.current_proxy_index % s.working_proxies.length)).map some).length =
          s.working_proxies.length := by simp
      rw [List.getElem?_eq_none (by omega), List.getElem?_eq_none (by omega)]
  refine ⟨hrot, ?_, by rw [h2], by rw [h2], ?_, ?_⟩
  · rw [hrot]
    exact List.Perm.map some (List.rotate_perm _ _)
  · intro t ht
    simp [Engine.get_next_proxy, ht]
  · intro t ht
    rw [Engine.get_next_proxy_of_ne_nil t ht]

/-- C4 witness: working list `[3, 4, 5]` with cursor 4 — three consecutive
selector calls return proxies 4, 5, 3 (the rotation by 4 mod 3 = 1), the
cursor ends at 7, and the working list is unchanged. -/
theorem round_robin_cycle_witness :
    (Engine.next_calls 3 (mkEngine [] [3, 4, 5] [] (fun _ => ⟨0, 0⟩) 4)).1 =
      ([4, 5, 3] : List Proxy).map some ∧
    (Engine.next_calls 3 (mkEngine [] [3, 4, 5] [] (fun _ => ⟨0, 0⟩) 4)).2.current_proxy_index = 7 := by
  have hr := round_robin_cycle (mkEngine [] [3, 4, 5] [] (fun _ => ⟨0, 0⟩) 4)
    (by decide)
  exact ⟨hr.1.trans (by rfl), hr.2.2.1.trans (by rfl)⟩

namespace Engine

lemma init_fold_spec (probe : Proxy → Bool) (l : List Proxy) (s : EngineState) :
    ((l.foldl (init_step probe) s).working_proxies =
      s.working_proxies ++ l.filter probe) ∧
    ((l.foldl (init_step probe) s).failed_proxies =
      s.failed_proxies ++ l.filter (fun p => ! probe p)) ∧
    ((l.foldl (init_step probe) s).free_proxies = s.free_proxies) := by
  induction l generalizing s with
  | nil => simp
  | cons a l ih =>
    rw [List.foldl_cons]
    obtain ⟨i1, i2, i3⟩ := ih (init_step probe s a)
    refine ⟨?_, ?_, ?_⟩
    · rw [i1]
      by_cases hp : probe a <;>
        simp [init_step, hp, List.filter_cons]
    · rw [i2]
      by_cases hp : probe a <;>
        simp [init_step, hp, List.filter_cons]
    · rw [i3]
      by_cases hp : probe a <;> simp [init_step, hp]

end Engine

/-- C8: after the fast-start pass on a freshly constructed pool, the Working
list is exactly the probe-successes among the first 20 candidates followed by
all candidates beyond the first 20 (added unprobed), and the Failed list is
exactly the probe-failures among the first 20; for a pool of 3 candidates
probing as success, failure, failure this gives 1 working and 2 failed. -/
theorem fast_start_partition (probe : Proxy → Bool) (pl : List Proxy) :
    ((Engine.init_proxies probe (Engine.init_state pl)).working_proxies =
      (pl.take 20).filter probe ++ pl.drop 20) ∧
    ((Engine.init_proxies probe (Engine.init_state pl)).failed_proxies =
      (pl.take 20).filter (fun p => ! probe p)) ∧
    ((Engine.init_proxies (fun p => p == 0)
        (Engine.init_state [0, 1, 2])).working_proxies.length = 1) ∧
    ((Engine.init_proxies (fun p => p == 0)
        (Engine.init_state [0, 1, 2])).failed_proxies.length = 2) := by
  obtain ⟨i1, i2, i3⟩ :=
    Engine.init_fold_spec probe ((Engine.init_state pl).free_proxies.take 20)
      (Engine.init_state pl)
  refine ⟨?_, ?_, by decide, by decide⟩
  · show (_ ++ _ : List Proxy) = _
    rw [i1, i3]
    simp [Engine.init_state]
  · show ((((Engine.init_state pl).free_proxies.take 20).foldl
        (Engine.init_step probe) (Engine.init_state pl)).failed_proxies) = _
    rw [i2]
    simp [Engine.init_state]

/-- C9: `load_free_proxies` is idempotent — applying it a second time with
the same address list changes nothing at all (pool, working list, failed
list, cursor), hence pool size and every classification are unchanged. -/
theorem load_free_proxies_idempotent (pl : List Proxy) (s : PM.PMState) :
    PM.load_free_proxies pl (PM.load_free_proxies pl s) =
      PM.load_free_proxies pl s := rfl

/-- C10: `get_working_proxy` on an empty working list returns `none` but
first reloads the full candidate list into the working list (so every
candidate, including every previously failed one, becomes selectable again
without any probe), leaving the failed list and cursor untouched; on a
non-empty working list it mutates only the cursor. -/
theorem get_working_proxy_reload (pl : List Proxy) (s : PM.PMState) :
    (s.working_proxies = [] →
      (PM.get_working_proxy pl s).1 = none ∧
      (PM.get_working_proxy pl s).2.working_proxies = pl ∧
      (PM.get_working_proxy pl s).2.proxies = pl ∧
      (PM.get_working_proxy pl s).2.failed_proxies = s.failed_proxies ∧
      (PM.get_working_proxy pl s).2.current_index = s.current_index) ∧
    (s.working_proxies ≠ [] →
      (PM.get_working_proxy pl s).2 =
        { s with current_index := s.current_index + 1 }) := by
  constructor
  · intro he
    have : (PM.get_working_proxy pl s) = (none, PM.load_free_proxies pl s) := by
      simp [PM.get_working_proxy, he]
    rw [this]
    exact ⟨rfl, rfl, rfl, rfl, rfl⟩
  · intro hne
    simp only [PM.get_working_proxy]
    rw [if_neg (by simp [List.isEmpty_eq_false.mpr hne])]

/-- C10 witness: candidate list `[0, 1]`, working list empty, proxy 0
previously failed — the call returns `none`, the working list becomes
`[0, 1]` (so the failed proxy 0 is selectable again), and the failed list
still contains 0. -/
theorem get_working_proxy_reload_witness :
    (PM.get_working_proxy [0, 1]
      { proxies := [0, 1], working_proxies := [], failed_proxies := [0],
        current_index := 2 }).1 = none ∧
    (PM.get_working_proxy [0, 1]
      { proxies := [0, 1], working_proxies := [], failed_proxies := [0],
        current_index := 2 }).2.working_proxies = [0, 1] ∧
    (PM.get_working_proxy [0, 1]
      { proxies := [0, 1], working_proxies := [], failed_proxies := [0],
        current_index := 2 }).2.failed_proxies = [0] := by
  have h := (get_working_proxy_reload [0, 1]
    { proxies := [0, 1], working_proxies := [], failed_proxies := [0],
      current_index := 2 }).1 (by decide)
  exact ⟨h.1, h.2.1, h.2.2.2.1⟩

namespace Engine

lemma sweep_step_inv (probe : Proxy → Bool) (acc : EngineState × List Proxy)
    (a p : Proxy) (hp : p ∈ acc.1.failed_proxies) (hl : p ∉ acc.2) :
    p ∈ (sweep_step probe acc a).1.failed_proxies ∧
    p ∉ (sweep_step probe acc a).2 := by
  obtain ⟨s, log⟩ := acc
  simp only [sweep_step]
  by_cases hskip : a ∈ s.working_proxies ∨ a ∈ s.failed_proxies
  · rw [if_pos hskip]
    exact ⟨hp, hl⟩
  · rw [if_neg hskip]
    push_neg at hskip
    have hane : p ≠ a := fun he => hskip.2 (he ▸ hp)
    have hlog : p ∉ log ++ [a] := by
      simp only [List.mem_append, List.mem_singleton]
      rintro (h | h)
      · exact hl h
      · exact hane h
    by_cases hprobe : probe a
    · rw [if_pos hprobe, if_neg hskip.1]
      exact ⟨hp, hlog⟩
    · rw [if_neg hprobe, if_neg hskip.1, if_neg hskip.2]
      exact ⟨List.mem_append_left _ hp, hlog⟩

lemma sweep_fold_inv (probe : Proxy → Bool) (l : List Proxy)
    (acc : EngineState × List Proxy) (p : Proxy)
    (hp : p ∈ acc.1.failed_proxies) (hl : p ∉ acc.2) :
    p ∈ (l.foldl (sweep_step probe) acc).1.failed_proxies ∧
    p ∉ (l.foldl (sweep_step probe) acc).2 := by
  induction l generalizing acc with
  | nil => exact ⟨hp, hl⟩
  | cons a l ih =>
    rw [List.foldl_cons]
    obtain ⟨h1, h2⟩ := sweep_step_inv probe acc a p hp hl
    exact ih _ h1 h2

end Engine

/-- C3 counterexample: candidate list `[0..20]`, the 21st candidate (index
20, the only one the sweep visits) sits in the Failed set; even with a probe
oracle that would report success for every proxy, the sweep issues no probe
at all (the probed log is empty) and the proxy stays Failed — refuting the
claim that the sweep re-probes every previously Failed candidate it visits. -/
theorem sweep_skips_failed_cex :
    (20 ∈ (mkEngine (List.range 21) (List.range 20) [20]
      (fun _ => ⟨0, 0⟩) 0).failed_proxies) ∧
    (20 ∈ (mkEngine (List.range 21) (List.range 20) [20]
      (fun _ => ⟨0, 0⟩) 0).free_proxies.drop 20) ∧
    ((Engine.background_proxy_testing (fun _ => true)
      (mkEngine (List.range 21) (List.range 20) [20]
        (fun _ => ⟨0, 0⟩) 0)).2 = []) ∧
    (20 ∈ (Engine.background_proxy_testing (fun _ => true)
      (mkEngine (List.range 21) (List.range 20) [20]
        (fun _ => ⟨0, 0⟩) 0)).1.failed_proxies) := by
  refine ⟨by decide, by decide, ?_, ?_⟩ <;> decide

/-- C3 amended: the background sweep visits only the candidates beyond the
first 20 and skips — without issuing any probe — every candidate already in
the Working or Failed list when visited; consequently a proxy in the Failed
set at the start of the sweep is never probed by it and is still Failed when
the sweep finishes (the sweep performs no recovery of Failed proxies). -/
theorem sweep_never_probes_failed (probe : Proxy → Bool)
    (s : Engine.EngineState) (p : Proxy) (hp : p ∈ s.failed_proxies) :
    p ∈ (Engine.background_proxy_testing probe s).1.failed_proxies ∧
    p ∉ (Engine.background_proxy_testing probe s).2 :=
  Engine.sweep_fold_inv probe _ (s, []) p hp (by simp)

/-- C3 witness: the amended theorem applied to the concrete 21-candidate
state with proxy 20 Failed and an always-true probe oracle. -/
theorem sweep_never_probes_failed_witness :
    20 ∈ (Engine.background_proxy_testing (fun _ => false)
      (mkEngine (List.range 21) (List.range 20) [20]
        (fun _ => ⟨0, 0⟩) 3)).1.failed_proxies ∧
    20 ∉ (Engine.background_proxy_testing (fun _ => false)
      (mkEngine (List.range 21) (List.range 20) [20]
        (fun _ => ⟨0, 0⟩) 3)).2 :=
  sweep_never_probes_failed (fun _ => false)
    (mkEngine (List.range 21) (List.range 20) [20] (fun _ => ⟨0, 0⟩) 3)
    20 (by decide)

namespace Engine

lemma upp_eq_of_cond_not_mem (s : EngineState) (p : Proxy) (b : Bool)
    (hcond : evictCond s p b) (hmem : p ∉ s.working_proxies) :
    update_proxy_performance s p b =
      { s with
        proxy_performance := fun q => if q = p then bumped s p b else s.proxy_performance q } := by
  obtain ⟨h1, h2⟩ := hcond
  simp only [bumped] at h1 h2
  simp only [update_proxy_performance, bumped]
  rw [if_pos ⟨h1, h2⟩]
  rw [if_neg hmem]

lemma upp_working_subset (s : EngineState) (p : Proxy) (b : Bool) (q : Proxy)
    (hq : q ∈ (update_proxy_performance s p b).working_proxies) :
    q ∈ s.working_proxies := by
  by_cases hcond : evictCond s p b
  · by_cases hmem : p ∈ s.working_proxies
    · rw [upp_eq_of_cond s p b hcond hmem] at hq
      exact List.mem_of_mem_erase hq
    · rw [upp_eq_of_cond_not_mem s p b hcond hmem] at hq
      exact hq
  · rw [upp_eq_of_not_cond s p b hcond] at hq
    exact hq

lemma upp_failed_mono (s : EngineState) (p : Proxy) (b : Bool) (q : Proxy)
    (hq : q ∈ s.failed_proxies) :
    q ∈ (update_proxy_performance s p b).failed_proxies := by
  by_cases hcond : evictCond s p b
  · by_cases hmem : p ∈ s.working_proxies
    · rw [upp_eq_of_cond s p b hcond hmem]
      exact List.mem_append_left _ hq
    · rw [upp_eq_of_cond_not_mem s p b hcond hmem]
      exact hq
  · rw [upp_eq_of_not_cond s p b hcond]
    exact hq

end Engine

/-- C2 counterexample: in `ProxyManager`, seed the pool with `[0, 1]`, mark
both proxies failed (the working list becomes empty, the failed list
`[0, 1]`), then make one selector call (`get_working_proxy`).  No probe is
involved anywhere, yet after the call the previously Failed proxy 0 is in
the working list again (so selectable by the next call) — refuting the claim
that a Failed proxy returns to Working only via a successful probe and that
no selector call ever does it. -/
theorem failed_resurrected_by_selector_cex :
    (0 ∈ (PM.mark_proxy_failed
      (PM.mark_proxy_failed (PM.initial [0, 1]) 0) 1).failed_proxies) ∧
    ((PM.mark_proxy_failed
      (PM.mark_proxy_failed (PM.initial [0, 1]) 0) 1).working_proxies = []) ∧
    (0 ∈ (PM.get_working_proxy [0, 1] (PM.mark_proxy_failed
      (PM.mark_proxy_failed (PM.initial [0, 1]) 0) 1)).2.working_proxies) ∧
    (0 ∈ (PM.get_working_proxy [0, 1] (PM.mark_proxy_failed
      (PM.mark_proxy_failed (PM.initial [0, 1]) 0) 1)).2.failed_proxies) := by
  refine ⟨?_, ?_, ?_, ?_⟩ <;> decide

/-- C2 amended: no live dispatch outcome report and no selector call of the
main engine ever returns a Failed proxy to Working
(`_update_proxy_performance` never adds to the working list and never removes
from the failed list, `_get_next_proxy` leaves both lists untouched), and
`mark_proxy_failed` never adds to the working list; however, in
`ProxyManager` a selector call (`get_working_proxy`) finding the working list
empty reloads the full candidate list into it, making previously Failed
proxies selectable again without any probe — only on a non-empty working
list does it leave the working and failed lists unchanged. -/
theorem no_live_resurrection (s : Engine.EngineState) (p : Proxy) (b : Bool)
    (t : PM.PMState) (pl : List Proxy) :
    (∀ q, q ∈ (Engine.update_proxy_performance s p b).working_proxies →
      q ∈ s.working_proxies) ∧
    (∀ q, q ∈ s.failed_proxies →
      q ∈ (Engine.update_proxy_performance s p b).failed_proxies) ∧
    ((Engine.get_next_proxy s).2.working_proxies = s.working_proxies ∧
     (Engine.get_next_proxy s).2.failed_proxies = s.failed_proxies) ∧
    (∀ q, q ∈ (PM.mark_proxy_failed t p).working_proxies →
      q ∈ t.working_proxies) ∧
    (t.working_proxies ≠ [] →
      (PM.get_working_proxy pl t).2.working_proxies = t.working_proxies ∧
      (PM.get_working_proxy pl t).2.failed_proxies = t.failed_proxies) := by
  refine ⟨Engine.upp_working_subset s p b, Engine.upp_failed_mono s p b, ?_, ?_, ?_⟩
  · by_cases he : s.working_proxies.isEmpty <;>
      simp [Engine.get_next_proxy, he]
  · intro q hq
    by_cases hm : p ∈ t.working_proxies
    · simp only [PM.mark_proxy_failed, if_pos hm] at hq
      exact List.mem_of_mem_erase hq
    · simp only [PM.mark_proxy_failed, if_neg hm] at hq
      exact hq
  · intro hne
    simp only [PM.get_working_proxy]
    rw [if_neg (by simp [List.isEmpty_eq_false.mpr hne])]
    exact ⟨rfl, rfl⟩

/-- C2 witness: the amended theorem applied at a concrete engine state (one
working proxy 1, one failed proxy 2, a failure reported for proxy 1) and a
concrete `ProxyManager` state: the failed proxy 2 is still failed after the
report, and a selector call on the non-empty working list `[3]` leaves both
lists unchanged. -/
theorem no_live_resurrection_witness :
    (2 ∈ (Engine.update_proxy_performance
      (mkEngine [1, 2] [1] [2] (fun _ => ⟨0, 0⟩) 0) 1 false).failed_proxies) ∧
    ((PM.get_working_proxy [0]
      { proxies := [3], working_proxies := [3], failed_proxies := [4],
        current_index := 0 }).2.working_proxies = [3] ∧
     (PM.get_working_proxy [0]
      { proxies := [3], working_proxies := [3], failed_proxies := [4],
        current_index := 0 }).2.failed_proxies = [4]) :=
  ⟨(no_live_resurrection (mkEngine [1, 2] [1] [2] (fun _ => ⟨0, 0⟩) 0) 1 false
      { proxies := [3], working_proxies := [3], failed_proxies := [4],
        current_index := 0 } [0]).2.1 2 (by decide),
   (no_live_resurrection (mkEngine [1, 2] [1] [2] (fun _ => ⟨0, 0⟩) 0) 1 false
      { proxies := [3], working_proxies := [3], failed_proxies := [4],
        current_index := 0 } [0]).2.2.2.2 (by decide)⟩

namespace Engine

lemma rotation_loop_length (net : Nat → Outcome) :
    ∀ (n : Nat) (s : EngineState) (log : List (Option Proxy)),
    (rotation_loop net n s log).2.2.length ≤ log.length + n := by
  intro n
  induction n with
  | zero => intro s log; simp [rotation_loop]
  | succ n ih =>
    intro s log
    rcases hgp : (get_next_proxy s).1 with _ | proxy
    · simp only [rotation_loop, hgp]
      have := ih (get_next_proxy s).2 log
      omega
    · rcases hnet : net log.length with resp | m
      · by_cases hst : resp.status = 200
        · simp only [rotation_loop, hgp, hnet, if_pos hst]
          simp
        · simp only [rotation_loop, hgp, hnet, if_neg hst]
          have := ih (update_proxy_performance (get_next_proxy s).2 proxy false)
            (log ++ [some proxy])
          simp only [List.length_append, List.length_singleton] at this
          omega
      · simp only [rotation_loop, hgp, hnet]
        have := ih (update_proxy_performance (get_next_proxy s).2 proxy false)
          (log ++ [some proxy])
        simp only [List.length_append, List.length_singleton] at this
        omega

lemma rotation_loop_log_some (net : Nat → Outcome) :
    ∀ (n : Nat) (s : EngineState) (log : List (Option Proxy)),
    (∀ a ∈ log, a ≠ none) →
    ∀ a ∈ (rotation_loop net n s log).2.2, a ≠ none := by
  intro n
  induction n with
  | zero => intro s log hlog; simpa [rotation_loop] using hlog
  | succ n ih =>
    intro s log hlog
    have hext : ∀ p, ∀ a ∈ log ++ [some p], a ≠ none := by
      intro p a ha
      rcases List.mem_append.mp ha with h | h
      · exact hlog a h
      · simp only [List.mem_singleton] at h
        subst h
        simp
    rcases hgp : (get_next_proxy s).1 with _ | proxy
    · simp only [rotation_loop, hgp]
      exact ih (get_next_proxy s).2 log hlog
    · rcases hnet : net log.length with resp | m
      · by_cases hst : resp.status = 200
        · simp only [rotation_loop, hgp, hnet, if_pos hst]
          exact hext proxy
        · simp only [rotation_loop, hgp, hnet, if_neg hst]
          exact ih _ _ (hext proxy)
      · simp only [rotation_loop, hgp, hnet]
        exact ih _ _ (hext proxy)

lemma rotation_loop_success_status (net : Nat → Outcome) :
    ∀ (n : Nat) (s : EngineState) (log : List (Option Proxy)) (r : Response),
    (rotation_loop net n s log).1 = some r → r.status = 200 := by
  intro n
  induction n with
  | zero =>
    intro s log r h
    simp [rotation_loop] at h
  | succ n ih =>
    intro s log r h
    rcases hgp : (get_next_proxy s).1 with _ | proxy
    · simp only [rotation_loop, hgp] at h
      exact ih _ _ _ h
    · rcases hnet : net log.length with resp | m
      · by_cases hst : resp.status = 200
        · simp only [rotation_loop, hgp, hnet, if_pos hst] at h
          cases h
          exact hst
        · simp only [rotation_loop, hgp, hnet, if_neg hst] at h
          exact ih _ _ _ h
      · simp only [rotation_loop, hgp, hnet] at h
        exact ih _ _ _ h

end Engine

namespace Engine

lemma make_request_log_length (net : Nat → Outcome) (s : EngineState) (mr : Nat) :
    (make_request_with_smart_rotation net s mr).2.2.length ≤ mr + 1 := by
  have hlen := rotation_loop_length net mr
    { s with request_count := s.request_count + 1 } []
  simp only [List.length_nil, Nat.zero_add] at hlen
  simp only [make_request_with_smart_rotation]
  rcases h1 : (rotation_loop net mr
      { s with request_count := s.request_count + 1 } []).1 with _ | resp
  · rcases hnet : net (rotation_loop net mr
        { s with request_count := s.request_count + 1 } []).2.2.length with r2 | m
    · simp only [h1, hnet]
      simp only [List.length_append, List.length_singleton]
      omega
    · simp only [h1, hnet]
      simp only [List.length_append, List.length_singleton]
      omega
  · simp only [h1]
    omega

end Engine

/-- C5: a top-level dispatch call (`search_web` / `read_url`) always returns
a structured result: on failure the error message is attached, on success
the status code and content are present; and the number of outbound requests
a dispatch call issues is bounded (at most `max_retries` proxied attempts
plus one direct attempt, 6 in total), so the call never loops without bound.
(The embedding is a total function: the Python `try/except` in
`search_web`/`read_url` converts the only exception `_make_request...` can
re-raise into the failure dictionary, so no unhandled exception escapes.) -/
theorem dispatch_always_structured (net : Nat → Engine.Outcome)
    (s : Engine.EngineState) (q u : String) :
    ((Engine.search_web net s q).1.success = false →
      ((Engine.search_web net s q).1.error).isSome = true) ∧
    ((Engine.search_web net s q).1.success = true →
      ((Engine.search_web net s q).1.status_code).isSome = true ∧
      ((Engine.search_web net s q).1.content).isSome = true) ∧
    ((Engine.read_url net s u).1.success = false →
      ((Engine.read_url net s u).1.error).isSome = true) ∧
    ((Engine.read_url net s u).1.success = true →
      ((Engine.read_url net s u).1.status_code).isSome = true) ∧
    ((Engine.make_request_with_smart_rotation net s 5).2.2.length ≤ 6) := by
  refine ⟨?_, ?_, ?_, ?_, Engine.make_request_log_length net s 5⟩ <;>
  · rcases hmk : Engine.make_request_with_smart_rotation net s 5 with ⟨fr, s2, log⟩
    cases fr <;> simp [Engine.search_web, Engine.read_url, hmk]

/-- C5 witness: with every outbound request failing (exception) and no
working proxy, the dispatch result is a failure and carries an error
message. -/
theorem dispatch_always_structured_witness :
    ((Engine.search_web (fun _ => Engine.Outcome.exception "down")
      (mkEngine [] [] [] (fun _ => ⟨0, 0⟩) 0) "a").1.error).isSome = true :=
  (dispatch_always_structured (fun _ => Engine.Outcome.exception "down")
    (mkEngine [] [] [] (fun _ => ⟨0, 0⟩) 0) "a" "b").1 (by rfl)

/-- C6 counterexample: with zero Working proxies and a network that answers
every request with HTTP 503, the proxied loop issues nothing and the final
direct attempt returns the 503 response — yet `search_web` reports
`success = true` with status code 503, refuting the claim that the
caller-visible result is a success only when the returned attempt had
HTTP 200. -/
theorem direct_non200_reported_success_cex :
    ((Engine.search_web (fun _ => Engine.Outcome.response ⟨503, "e"⟩)
      (mkEngine [] [] [] (fun _ => ⟨0, 0⟩) 0) "q").1.success = true) ∧
    ((Engine.search_web (fun _ => Engine.Outcome.response ⟨503, "e"⟩)
      (mkEngine [] [] [] (fun _ => ⟨0, 0⟩) 0) "q").1.status_code = some 503) :=
  ⟨rfl, rfl⟩

/-- C6 amended: the caller-visible result is a success exactly when the
dispatch returned a response rather than raising an exception, and then the
reported status code is that response's status.  A response returned from
the proxied loop necessarily has HTTP status 200 (any non-200 proxied
response or error is counted as a failed attempt and the loop continues),
but the final direct attempt's response is returned whatever its status, so
a direct non-200 response yields a result with `success = true` carrying
that non-200 status. -/
theorem success_iff_returned_response (net : Nat → Engine.Outcome)
    (s : Engine.EngineState) (q : String) :
    ((Engine.search_web net s q).1.success = true ↔
      (∃ resp, (Engine.make_request_with_smart_rotation net s 5).1 =
        Engine.FetchResult.response resp)) ∧
    (∀ resp, (Engine.make_request_with_smart_rotation net s 5).1 =
        Engine.FetchResult.response resp →
      (Engine.search_web net s q).1.status_code = some resp.status) ∧
    (∀ r : Engine.Response,
      (Engine.rotation_loop net 5
        { s with request_count := s.request_count + 1 } []).1 = some r →
      r.status = 200) := by
  refine ⟨?_, ?_, fun r h => Engine.rotation_loop_success_status net 5 _ [] r h⟩
  · rcases hmk : Engine.make_request_with_smart_rotation net s 5 with ⟨fr, s2, log⟩
    cases fr with
    | response resp =>
      simp [Engine.search_web, hmk]
    | raised m =>
      simp [Engine.search_web, hmk]
  · intro resp hresp
    rcases hmk : Engine.make_request_with_smart_rotation net s 5 with ⟨fr, s2, log⟩
    rw [hmk] at hresp
    simp only at hresp
    subst hresp
    simp [Engine.search_web, hmk]

/-- C6 amended witness: one working proxy and a network answering 200 — the
dispatch returns that response and `search_web` reports success. -/
theorem success_iff_returned_response_witness :
    (Engine.search_web (fun _ => Engine.Outcome.response ⟨200, "ok"⟩)
      (mkEngine [5] [5] [] (fun _ => ⟨0, 0⟩) 0) "q").1.success = true :=
  (success_iff_returned_response (fun _ => Engine.Outcome.response ⟨200, "ok"⟩)
    (mkEngine [5] [5] [] (fun _ => ⟨0, 0⟩) 0) "q").1.mpr
    ⟨⟨200, "ok"⟩, by decide⟩

/-- C7: whenever the proxied-attempt loop of
`_make_request_with_smart_rotation` ends without a 200 response (including
when the selector kept returning `none`), the engine issues exactly one
additional proxy-less (direct) attempt — the request log of the call is the
loop's log (whose entries are all proxied) extended by exactly one direct
entry — and the outcome of that direct attempt is the overall result of the
call: its response (any status) is returned, and its exception is re-raised
with the message preserved, with no further retry. -/
theorem direct_fallback (net : Nat → Engine.Outcome) (s : Engine.EngineState)
    (mr : Nat)
    (h : (Engine.rotation_loop net mr
      { s with request_count := s.request_count + 1 } []).1 = none) :
    ((Engine.make_request_with_smart_rotation net s mr).2.2 =
      (Engine.rotation_loop net mr
        { s with request_count := s.request_count + 1 } []).2.2 ++ [none]) ∧
    (∀ a ∈ (Engine.rotation_loop net mr
        { s with request_count := s.request_count + 1 } []).2.2, a ≠ none) ∧
    ((Engine.make_request_with_smart_rotation net s mr).1 =
      match net (Engine.rotation_loop net mr
          { s with request_count := s.request_count + 1 } []).2.2.length with
      | Engine.Outcome.response resp => Engine.FetchResult.response resp
      | Engine.Outcome.exception m => Engine.FetchResult.raised m) := by
  refine ⟨?_, Engine.rotation_loop_log_some net mr _ [] (by simp), ?_⟩ <;>
  · simp only [Engine.make_request_with_smart_rotation, h]
    rcases hnet : net (Engine.rotation_loop net mr
        { s with request_count := s.request_count + 1 } []).2.2.length with resp | m
    · simp [hnet]
    · simp [hnet]

/-- C7 witness: one working proxy and a network raising on every request —
the loop's five proxied attempts all fail, the call makes exactly one direct
attempt after them (log `[some 5] × 5 ++ [none]`), and the direct attempt's
exception is the call's result. -/
theorem direct_fallback_witness :
    ((Engine.make_request_with_smart_rotation
      (fun _ => Engine.Outcome.exception "boom")
      (mkEngine [5] [5] [] (fun _ => ⟨0, 0⟩) 0) 5).2.2 =
      [some 5, some 5, some 5, some 5, some 5, none]) ∧
    ((Engine.make_request_with_smart_rotation
      (fun _ => Engine.Outcome.exception "boom")
      (mkEngine [5] [5] [] (fun _ => ⟨0, 0⟩) 0) 5).1 =
      Engine.FetchResult.raised "boom") := by
  have hd := direct_fallback (fun _ => Engine.Outcome.exception "boom")
    (mkEngine [5] [5] [] (fun _ => ⟨0, 0⟩) 0) 5 (by decide)
  exact ⟨hd.1.trans (by decide), hd.2.2.trans (by decide)⟩
